import Mathlib

/-!
Verification of the FAT12-Reader repository (src/FAT12_Reader) against its
natural-language specification.  The C sources are shallowly embedded: machine
integers become `Nat` with explicit `% 2^w` where an overflow could occur,
byte buffers become `Nat → Nat` (reads reduced `% 256`, matching `uint8_t`)
or `List Nat`, the file-scope mutable state of `FATfs.c`/`HAL.c` is passed
explicitly, and the unbounded `while` loop of the chain walker is modelled
with explicit fuel returning `Option` (`none` = the loop has not terminated
within the given number of iterations).
-/

namespace FAT12

/-! ## Constants from FATfs.h and HAL.h -/

/-- FATfs.h:28 `#define ENTRIES_PER_SECTOR 16`. -/
def ENTRIES_PER_SECTOR : Nat := 16

/-- FATfs.h:29 `#define FAT12_CLUSTER_OFFSET_FACTOR 31`. -/
def FAT12_CLUSTER_OFFSET_FACTOR : Nat := 31

/-- FATfs.h:54 `ROOT_DIR_12_PHYSC_BASE_INDEX = 19`. -/
def ROOT_DIR_12_PHYSC_BASE_INDEX : Nat := 19

/-- FATfs.h:55 `ROOT_DIR_12_LOGICAL_BASE_INDEX = 0`. -/
def ROOT_DIR_12_LOGICAL_BASE_INDEX : Nat := 0

/-- FATfs.h:58 `FAT_TABE_PHYSC_BASE_INDEX = 1`. -/
def FAT_TABE_PHYSC_BASE_INDEX : Nat := 1

/-- HAL.h:29 `#define KMC_DEFAULT_SECTOR_SIZE 512`. -/
def KMC_DEFAULT_SECTOR_SIZE : Nat := 512

/-- FATfs.h:44-48, entry-marker byte values. -/
def DELETED_ENTRY : Nat := 0xE5

def UNUSED_ENTRY : Nat := 0x00

def FAKE_ENTRY : Nat := 0x0F

/-- FATfs.h:35-40 `disk_state_enum_t`. -/
inductive DiskState where
  | GOOD_CONDITION
  | FAILED_TO_OPEN
  | BAD_BOOT_SECTOR
deriving DecidableEq, Repr

/-! ## Boot sector (FATfs.h:71-84 `fatfs_boot_sector_struct_t`)

All fields are the numeric values parsed by `fatfs_init` (FATfs.c:311-325);
the widths are `uint16_t`/`uint8_t` in the source, every parsed value fits. -/

structure BootSector where
  bytes_per_sector : Nat
  sectors_per_cluster : Nat
  reserved_sectors_quantity : Nat
  num_of_FATs : Nat
  max_root_dir_entries : Nat
  total_sectors : Nat
  sectors_per_FAT : Nat
deriving DecidableEq, Repr

/-- The zero-initialised file-scope `s_FAT12Infor` (FATfs.c:79) before the
first call of `fatfs_init` (C statics start zeroed). -/
def zeroBoot : BootSector := ⟨0, 0, 0, 0, 0, 0, 0⟩

/-- The boot-sector check of FATfs.c:336, with C operator precedence:
`A || B && C && D && E` parses as `A || (B && C && D && E)`. -/
def boot_sector_invalid (b : BootSector) : Bool :=
  (b.bytes_per_sector % 512 != 0) ||
    (decide (b.bytes_per_sector < 1) && decide (b.reserved_sectors_quantity < 1) &&
      decide (b.num_of_FATs < 2) && (b.max_root_dir_entries % 16 != 0))

/-- The validation stated by the specification (§4.2): all four conditions
must hold, otherwise BadBootSector.  Named `spec_` because it follows the
spec's words, to be compared with `boot_sector_invalid` from the source. -/
def spec_boot_sector_valid (b : BootSector) : Bool :=
  decide (0 < b.bytes_per_sector) && (b.bytes_per_sector % 512 == 0) &&
    decide (1 ≤ b.reserved_sectors_quantity) && decide (2 ≤ b.num_of_FATs) &&
    (b.max_root_dir_entries % 16 == 0)

/-- Result of `fatfs_init` (FATfs.c:288-356): the returned disk state plus
whether the success branch (FATfs.c:343-352) ran, i.e. whether
`kmc_update_sector_size` was called and the FAT buffer was allocated and
read. -/
structure InitEffects where
  state : DiskState
  called_update_sector_size : Bool
  allocated_and_read_FAT : Bool
deriving DecidableEq, Repr

/-- Model of `fatfs_init` (FATfs.c:288-356).  `open_ok` is whether `kmc_init` returned
a non-NULL handle; `parsed` is the boot sector decoded from sector 0 when the
open succeeds; `prev` is the value `s_FAT12Infor` had before the call (it is
only assigned when the open succeeds, FATfs.c:301-333).

The source sets `state = FAILED_TO_OPEN` when the open fails (FATfs.c:303),
but the validation `if`/`else` at FATfs.c:335-353 is a separate statement that
runs unconditionally and assigns `state` again on both branches, so that
assignment is always overwritten. -/
def fatfs_init (open_ok : Bool) (parsed prev : BootSector) : InitEffects :=
  let _state₀ := if open_ok then DiskState.GOOD_CONDITION else DiskState.FAILED_TO_OPEN
  let infor := if open_ok then parsed else prev
  -- FATfs.c:335-353: unconditional re-assignment of `state`; `_state₀` is dead.
  if boot_sector_invalid infor then
    { state := .BAD_BOOT_SECTOR
      called_update_sector_size := false
      allocated_and_read_FAT := false }
  else
    { state := .GOOD_CONDITION
      called_update_sector_size := true
      allocated_and_read_FAT := true }

/-- A parsed boot sector whose only defect is `fat_count = 1` (< 2). -/
def bootOneFat : BootSector := ⟨512, 1, 1, 1, 224, 2880, 9⟩

/-- A parsed boot sector with `bytes_per_sector = 0` but sane other fields. -/
def bootZeroBps : BootSector := ⟨0, 1, 1, 2, 224, 2880, 9⟩

/-! ## Theorems for C1 and C2 -/

/-- C1: the claim says that when the image cannot be opened `fatfs_init`
returns FailedToOpen and performs no sector-size update and no FAT
allocation/read.  The code instead falls through to the unconditional
validation check; on the first call (`s_FAT12Infor` still zeroed) the
mis-grouped predicate accepts the all-zero boot struct, so `fatfs_init`
returns GOOD_CONDITION and runs the sector-size update and the FAT
allocation and read.  This theorem evaluates the embedded `fatfs_init` at
that failing input (open fails, statics zeroed), for any value the parse
would have produced. -/
theorem c1_init_open_failure_falls_through :
    ∀ parsed : BootSector,
      fatfs_init false parsed zeroBoot =
        { state := .GOOD_CONDITION
          called_update_sector_size := true
          allocated_and_read_FAT := true } ∧
      (fatfs_init false parsed zeroBoot).state ≠ DiskState.FAILED_TO_OPEN := by
  intro parsed
  constructor
  · rfl
  · intro h
    simp [fatfs_init, zeroBoot, boot_sector_invalid] at h

/-- C2: the claim says BadBootSector is returned iff one of the four
validation conditions fails.  The source's predicate (FATfs.c:336) is
mis-parenthesized — `A || B && C && D && E` groups as `A || (B && C && D &&
E)` — so a boot sector with `fat_count = 1` (all other conditions fine) and
even one with `bytes_per_sector = 0` (with `reserved ≥ 1`) pass the check and
`fatfs_init` returns GOOD_CONDITION where the claim requires BadBootSector. -/
theorem c2_boot_validation_misgrouped :
    boot_sector_invalid bootOneFat = false ∧
    spec_boot_sector_valid bootOneFat = false ∧
    (fatfs_init true bootOneFat zeroBoot).state = DiskState.GOOD_CONDITION ∧
    boot_sector_invalid bootZeroBps = false ∧
    spec_boot_sector_valid bootZeroBps = false ∧
    (fatfs_init true bootZeroBps zeroBoot).state = DiskState.GOOD_CONDITION := by
  decide

/-! ## FAT table decoding (FATfs.c:167-193 `read_FAT_entry`)

The FAT buffer `s_fat_table` is `uint8_t *`; a byte read is modelled as
`fat i % 256`.  `four_bits`, `eight_bits` and `FAT_entry` are `uint16_t`
locals, so each assignment is reduced `% 65536` (the proofs below show those
reductions never truncate). -/

/-- Model of `read_FAT_entry` (FATfs.c:167-193).  The source branches on the low bit
`logical_cluster & 1`; `c % 2 = 1` is that test. -/
def read_FAT_entry (fat : Nat → Nat) (c : Nat) : Nat :=
  if c % 2 = 1 then
    let four_bits := ((fat ((3 * c) / 2) % 256) >>> 4) % 65536
    let eight_bits := ((fat ((3 * c) / 2 + 1) % 256) <<< 4) % 65536
    (four_bits + eight_bits) % 65536
  else
    let four_bits := (((fat ((3 * c) / 2 + 1) % 256) &&& 0x0f) <<< 8) % 65536
    let eight_bits := fat ((3 * c) / 2) % 256
    (four_bits + eight_bits) % 65536

/-- The claim's formula for the FAT entry, following the spec's words
(§4.3): with `off = ⌊3c/2⌋`, even `c` gives
`table[off] | ((table[off+1] & 0x0F) << 8)` and odd `c` gives
`(table[off] >> 4) | (table[off+1] << 4)`. -/
def spec_fat_entry_formula (fat : Nat → Nat) (c : Nat) : Nat :=
  if c % 2 = 1 then
    ((fat ((3 * c) / 2) % 256) >>> 4) ||| ((fat ((3 * c) / 2 + 1) % 256) <<< 4)
  else
    (fat ((3 * c) / 2) % 256) ||| (((fat ((3 * c) / 2 + 1) % 256) &&& 0x0f) <<< 8)

/-- The `j`-th nibble of the FAT byte buffer: low nibble of byte `j/2` when
`j` is even, high nibble when `j` is odd. -/
def fat_nibble (fat : Nat → Nat) (j : Nat) : Nat :=
  ((fat (j / 2) % 256) / 16 ^ (j % 2)) % 16

/-- The 12-bit little-endian value stored at nibble offset `j`. -/
def twelve_bit_at (fat : Nat → Nat) (j : Nat) : Nat :=
  fat_nibble fat j + 16 * fat_nibble fat (j + 1) + 256 * fat_nibble fat (j + 2)

/-- Bridging: `x <<< 4` as multiplication by 16. -/
theorem shiftLeft4_as_mul (x : Nat) : x <<< 4 = x * 16 := by
  rw [Nat.shiftLeft_eq]

/-- Bridging: `x <<< 8` as multiplication by 256. -/
theorem shiftLeft8_as_mul (x : Nat) : x <<< 8 = x * 256 := by
  rw [Nat.shiftLeft_eq]

/-- Bridging: `x >>> 4` as division by 16. -/
theorem shiftRight4_as_div (x : Nat) : x >>> 4 = x / 16 := by
  rw [Nat.shiftRight_eq_div_pow]

/-- Bridging: `x &&& 0x0f` as remainder mod 16. -/
theorem and15_as_mod (x : Nat) : x &&& 0x0f = x % 16 := by
  have h15 : (0x0f : Nat) = 2 ^ 4 - 1 := by norm_num
  rw [h15, Nat.and_pow_two_sub_one_eq_mod]

/-- Bitwise-or of disjoint parts is addition: when `a < 2 ^ k`,
`a ||| b * 2 ^ k = a + b * 2 ^ k`. -/
theorem lor_lowbits (a b k : Nat) (h : a < 2 ^ k) : a ||| b * 2 ^ k = a + b * 2 ^ k := by
  rw [Nat.lor_comm, Nat.mul_comm b (2 ^ k), ← Nat.mul_add_lt_is_or h]
  omega

/-- The even-cluster or: a byte or-ed with a nibble shifted into bits 8-11. -/
theorem lor_byte_nibble (x y : Nat) :
    x % 256 ||| y % 16 * 256 = x % 256 + y % 16 * 256 := by
  have := lor_lowbits (x % 256) (y % 16) 8 (by omega)
  simpa using this

/-- The odd-cluster or: a high nibble or-ed with a byte shifted left 4. -/
theorem lor_nibble_byte (x y : Nat) :
    x % 256 / 16 ||| y % 256 * 16 = x % 256 / 16 + y % 256 * 16 := by
  have := lor_lowbits (x % 256 / 16) (y % 256) 4 (by omega)
  simpa using this

/-- C7: for every FAT byte buffer and every cluster index `c`,
`read_FAT_entry fat c` equals the claim's even/odd bitwise formula, equals
the 12-bit value at nibble offset `3c`, and fits in 12 bits. -/
theorem c7_read_fat_entry_correct (fat : Nat → Nat) (c : Nat) :
    read_FAT_entry fat c = spec_fat_entry_formula fat c ∧
    read_FAT_entry fat c = twelve_bit_at fat (3 * c) ∧
    read_FAT_entry fat c < 4096 := by
  rcases Nat.even_or_odd c with hc | hc
  · obtain ⟨k, hk⟩ := hc
    have hmod : (c % 2 = 1) = False := eq_false (by omega)
    have e1 : (3 * c) / 2 = 3 * k := by omega
    have e2 : (3 * c + 1) / 2 = 3 * k := by omega
    have e3 : (3 * c + 2) / 2 = 3 * k + 1 := by omega
    have e4 : (3 * c) % 2 = 0 := by omega
    have e5 : (3 * c + 1) % 2 = 1 := by omega
    have e6 : (3 * c + 2) % 2 = 0 := by omega
    have hb0 : fat (3 * k) % 256 < 256 := Nat.mod_lt _ (by omega)
    have hb1 : fat (3 * k + 1) % 256 < 256 := Nat.mod_lt _ (by omega)
    simp only [read_FAT_entry, spec_fat_entry_formula, twelve_bit_at, fat_nibble,
      hmod, if_false, e1, e2, e3, e4, e5, e6, and15_as_mod, shiftLeft8_as_mul,
      lor_byte_nibble, pow_zero, pow_one, Nat.div_one]
    omega
  · obtain ⟨k, hk⟩ := hc
    have hmod : (c % 2 = 1) = True := eq_true (by omega)
    have e1 : (3 * c) / 2 = 3 * k + 1 := by omega
    have e2 : (3 * c + 1) / 2 = 3 * k + 2 := by omega
    have e3 : (3 * c + 2) / 2 = 3 * k + 2 := by omega
    have e4 : (3 * c) % 2 = 1 := by omega
    have e5 : (3 * c + 1) % 2 = 0 := by omega
    have e6 : (3 * c + 2) % 2 = 1 := by omega
    have e7 : 3 * k + 1 + 1 = 3 * k + 2 := by omega
    have hb0 : fat (3 * k + 1) % 256 < 256 := Nat.mod_lt _ (by omega)
    have hb1 : fat (3 * k + 2) % 256 < 256 := Nat.mod_lt _ (by omega)
    simp only [read_FAT_entry, spec_fat_entry_formula, twelve_bit_at, fat_nibble,
      hmod, if_true, e1, e7, e2, e3, e4, e5, e6, shiftRight4_as_div, shiftLeft4_as_mul,
      lor_nibble_byte, pow_zero, pow_one, Nat.div_one]
    omega

/-! ## Chain walker (FATfs.c:242-263 `fatfs_get_cluster_chain`)

The source appends `first_logical_cluster`, then loops
`while (logical_cluster < 0xFF8) { logical_cluster = read_FAT_entry(...);
fatfs_add_node(...); }` and returns `chain_length - 1`.  There is no cycle
guard, so the loop need not terminate; `chain_loop` carries fuel and
returns `none` when the loop has not finished within `fuel` iterations. -/

/-- The nodes appended by the `while` loop of FATfs.c:255-260 when the
current `logical_cluster` is `cur`. -/
def chain_loop (fat : Nat → Nat) : Nat → Nat → Option (List Nat)
  | 0, _ => none
  | fuel + 1, cur =>
    if cur < 0xFF8 then
      let nxt := read_FAT_entry fat cur
      (chain_loop fat fuel nxt).map (fun rest => nxt :: rest)
    else
      some []

/-- Model of `fatfs_get_cluster_chain` (FATfs.c:242-263): the linked-list contents
(first node included) and the returned value `chain_length - 1`. -/
def fatfs_get_cluster_chain (fat : Nat → Nat) (fuel first : Nat) :
    Option (List Nat × Nat) :=
  (chain_loop fat fuel first).map
    (fun rest => (first :: rest, (first :: rest).length - 1))

/-- A FAT table whose entry for cluster 2 points back to cluster 2
(bytes 3 and 4 hold the 12-bit value 0x002 at nibble offset 6). -/
def fatCyclic : Nat → Nat := fun i => if i = 3 then 0x02 else 0

/-- A FAT table where entry 2 = 0xFF7 (bad-cluster marker) and
entry 0xFF7 = 0xFFF (end of chain). -/
def fatBad77 : Nat → Nat := fun i =>
  if i = 3 then 0xF7 else if i = 4 then 0x0F else
  if i = 6130 then 0xF0 else if i = 6131 then 0xFF else 0

/-- A FAT table where entry 2 = 0xFFF: the chain of cluster 2 is just
cluster 2 itself. -/
def fatSingle : Nat → Nat := fun i =>
  if i = 3 then 0xFF else if i = 4 then 0x0F else 0

/-- C3: the claim says the chain walk stops after at most the number of data
clusters and reports CorruptChain on a cyclic FAT.  The source's walker has
no bound and no CorruptChain state: on the FAT whose entry for cluster 2
points back to cluster 2, the loop guard `logical_cluster < 0xFF8` never
becomes false, so for every iteration bound the walk is still running —
it never terminates, no matter how far past the total number of data
clusters it gets. -/
theorem c3_chain_walk_cycle_diverges :
    ∀ fuel : Nat, fatfs_get_cluster_chain fatCyclic fuel 2 = none := by
  have hstep : read_FAT_entry fatCyclic 2 = 2 := by decide
  have hloop : ∀ fuel : Nat, chain_loop fatCyclic fuel 2 = none := by
    intro fuel
    induction fuel with
    | zero => rfl
    | succ n ih =>
      simp only [chain_loop, hstep, if_pos (by omega : (2 : Nat) < 0xFF8), ih,
        Option.map_none']
  intro fuel
  simp only [fatfs_get_cluster_chain, hloop, Option.map_none']

/-- Invariant of the loop nodes: starting from `cur`, consecutive stored
nodes are linked by `read_FAT_entry`, every node before the last is below
0xFF8, and the last node is the first value `≥ 0xFF8` (the terminal
marker, which the source stores). -/
theorem chain_loop_sound (fat : Nat → Nat) :
    ∀ (fuel cur : Nat) (rest : List Nat),
      chain_loop fat fuel cur = some rest →
      List.Chain (fun p q => read_FAT_entry fat p = q) cur rest ∧
      (∀ x ∈ (cur :: rest).dropLast, x < 0xFF8) ∧
      ∃ t, (cur :: rest).getLast? = some t ∧ 0xFF8 ≤ t := by
  intro fuel
  induction fuel with
  | zero => intro cur rest h; exact absurd h (by simp [chain_loop])
  | succ n ih =>
    intro cur rest h
    by_cases hcur : cur < 0xFF8
    · simp only [chain_loop, if_pos hcur] at h
      rcases Option.map_eq_some'.mp h with ⟨rest', hrest', hcons⟩
      obtain ⟨hchain', hbelow', t, hlast', ht⟩ := ih _ _ hrest'
      subst hcons
      refine ⟨List.Chain.cons rfl hchain', ?_, t, ?_, ht⟩
      · intro x hx
        rw [List.dropLast_cons₂, List.mem_cons] at hx
        rcases hx with hx | hx
        · subst hx; exact hcur
        · exact hbelow' x hx
      · rw [List.getLast?_cons_cons]
        exact hlast'
    · simp only [chain_loop, if_neg hcur] at h
      cases h
      exact ⟨List.Chain.nil, by simp, cur, by simp, by omega⟩

/-- C6 counterexample: the claim asserts that no stored element is 0xFF7 and
that the terminal marker is never stored.  On `fatBad77` the walker
produces the node list `[2, 0xFF7, 0xFFF]` (and reports length 2): the
bad-cluster marker 0xFF7 is a stored element, and the terminal marker
0xFFF (≥ 0xFF8) is stored as the last node. -/
theorem c6_chain_counterexample :
    fatfs_get_cluster_chain fatBad77 10 2 = some ([2, 0xFF7, 0xFFF], 2) ∧
    0xFF7 ∈ [2, 0xFF7, 0xFFF] ∧
    0xFFF ∈ [2, 0xFF7, 0xFFF] ∧ 0xFF8 ≤ 0xFFF := by
  refine ⟨?_, by decide, by decide, by decide⟩
  decide

/-- C6 amended: for every chain the source's walker produces (i.e. whenever
its loop terminates), the first stored node is `first`; consecutive stored
nodes satisfy `read_FAT_entry prev = next`; the last stored node is the
terminal marker (the first encountered value ≥ 0xFF8) — so the marker IS
stored — while every earlier node is < 0xFF8; and the reported length is
the node count minus one, counting only the nodes before the terminal
marker.  (No guarantee excludes 0, 1 or 0xFF7 from the stored nodes.) -/
theorem c6_chain_invariants (fat : Nat → Nat) (fuel first : Nat)
    (nodes : List Nat) (len : Nat)
    (h : fatfs_get_cluster_chain fat fuel first = some (nodes, len)) :
    nodes.head? = some first ∧
    nodes.Chain' (fun p q => read_FAT_entry fat p = q) ∧
    (∀ x ∈ nodes.dropLast, x < 0xFF8) ∧
    (∃ t, nodes.getLast? = some t ∧ 0xFF8 ≤ t) ∧
    len = nodes.length - 1 := by
  rcases Option.map_eq_some'.mp h with ⟨rest, hrest, heq⟩
  have hsound := chain_loop_sound fat fuel first rest hrest
  obtain ⟨hchain, hbelow, t, hlast, ht⟩ := hsound
  have hn : nodes = first :: rest := by
    have := congrArg Prod.fst heq
    simpa using this.symm
  have hl : len = (first :: rest).length - 1 := by
    have := congrArg Prod.snd heq
    simpa using this.symm
  subst hn
  refine ⟨rfl, hchain, hbelow, ⟨t, hlast, ht⟩, by simpa using hl⟩

/-- C6 witness: the amended invariants hold on the concrete chain
`[2, 0xFFF]` produced from `fatSingle`. -/
theorem c6_chain_invariants_witness :
    [2, 0xFFF].head? = some 2 ∧
    List.Chain' (fun p q => read_FAT_entry fatSingle p = q) [2, 0xFFF] ∧
    (∀ x ∈ ([2, 0xFFF] : List Nat).dropLast, x < 0xFF8) ∧
    (∃ t, ([2, 0xFFF] : List Nat).getLast? = some t ∧ 0xFF8 ≤ t) ∧
    1 = ([2, 0xFFF] : List Nat).length - 1 :=
  c6_chain_invariants fatSingle 10 2 [2, 0xFFF] 1 (by decide)

/-! ## Sector reads (HAL.c:36-55 `kmc_read_sector`) and file streaming
(FATfs.c:534-571 `fatfs_read_file`) -/

/-- Model of `kmc_read_sector` (HAL.c:36-55): seeks to `index * s_sector_size` and
reads `s_sector_size` bytes of the image. -/
def kmc_read_sector (img : Nat → Nat) (sector_size index : Nat) : List Nat :=
  (List.range sector_size).map (fun j => img (index * sector_size + j) % 256)

/-- Model of `fatfs_read_file` (FATfs.c:534-571): builds the cluster chain, then
loops `while (NULL != temp->next)` — over every node but the last — and for
each node reads the single sector `node + FAT12_CLUSTER_OFFSET_FACTOR` into
a `bytes_per_sector`-byte buffer and invokes the registered callback with
`(buffer, bytes_per_sector)`.  The result is the list of callback
invocations, each as (buffer bytes seen by the sink, length argument);
`none` when the chain walk does not terminate.  `sector_size` is the HAL's
`s_sector_size`; the sink sees the first `bps` bytes of the buffer. -/
def fatfs_read_file (img : Nat → Nat) (sector_size bps : Nat)
    (fat : Nat → Nat) (fuel first : Nat) : Option (List (List Nat × Nat)) :=
  (fatfs_get_cluster_chain fat fuel first).map (fun chain =>
    chain.1.dropLast.map (fun c =>
      ((kmc_read_sector img sector_size (c + FAT12_CLUSTER_OFFSET_FACTOR)).take bps, bps)))

/-- The byte values of `Hello, world!`. -/
def helloBytes : List Nat :=
  [72, 101, 108, 108, 111, 44, 32, 119, 111, 114, 108, 100, 33]

/-- The stock 1.44 MB image restricted to what `read_file(2)` touches:
sector 33 (cluster 2) holds `Hello, world!` followed by zeros. -/
def imgStock : Nat → Nat := fun i =>
  if 33 * 512 ≤ i ∧ i < 33 * 512 + 13 then helloBytes.getD (i - 33 * 512) 0 else 0

/-- A boot sector with `sectors_per_cluster = 2` (and bps 512), for which the
claim requires 1024-byte sink buffers. -/
def bootSpc2 : BootSector := ⟨512, 2, 1, 2, 224, 2880, 9⟩

set_option maxRecDepth 16384 in
/-- C4: on the stock image (sectors_per_cluster = 1) the behaviour matches
the claim: the sink is invoked once, with a 512-byte buffer whose first 13
bytes are `Hello, world!`.  But the code always passes
`s_FAT12Infor.bytes_per_sector` bytes — it reads ONE sector per chain node
(FATfs.c:555-558) — so for a boot sector with `sectors_per_cluster = 2` the
sink length is 512, not the `bytes_per_sector × sectors_per_cluster = 1024`
the claim requires. -/
theorem c4_read_file_sink_calls :
    (fatfs_read_file imgStock 512 512 fatSingle 10 2).map
        (fun calls => calls.map (fun pr => (pr.1.take 13, pr.1.length, pr.2)))
      = some [(helloBytes, 512, 512)] ∧
    bootSpc2.sectors_per_cluster = 2 ∧
    (fatfs_read_file imgStock 512 bootSpc2.bytes_per_sector fatSingle 10 2).map
        (fun calls => calls.map Prod.snd) = some [512] ∧
    bootSpc2.bytes_per_sector * bootSpc2.sectors_per_cluster = 1024 ∧
    (512 : Nat) ≠ 1024 := by
  refine ⟨?_, rfl, ?_, rfl, by omega⟩
  · decide
  · decide

/-! ## Geometry (FATfs.h:51-59, FATfs.c:377-424)

`fatfs_read_dir` reads the root directory at the hard-coded sector
`ROOT_DIR_12_PHYSC_BASE_INDEX = 19` with `max_root_dir_entries /
ENTRIES_PER_SECTOR` sectors, and reads a chain cluster `c` at the
hard-coded sector `c + FAT12_CLUSTER_OFFSET_FACTOR` (FATfs.c:417); the
parsed geometry fields are never consulted for these positions. -/

/-- Sector at which the source reads the root directory (FATfs.c:393). -/
def code_root_dir_sector : Nat := ROOT_DIR_12_PHYSC_BASE_INDEX

/-- Number of sectors the source reads for the root directory
(FATfs.c:381: `max_root_dir_entries / ENTRIES_PER_SECTOR`). -/
def code_root_dir_sector_count (b : BootSector) : Nat :=
  b.max_root_dir_entries / ENTRIES_PER_SECTOR

/-- Sector at which the source reads cluster `c`
(FATfs.c:417,555: `logical_cluster + FAT12_CLUSTER_OFFSET_FACTOR`). -/
def code_cluster_read_sector (c : Nat) : Nat := c + FAT12_CLUSTER_OFFSET_FACTOR

/-- Spec formula (§3): `root_dir_sector = reserved + fats × sectors_per_fat`. -/
def spec_root_dir_sector (b : BootSector) : Nat :=
  b.reserved_sectors_quantity + b.num_of_FATs * b.sectors_per_FAT

/-- Spec formula (§3): `root_dir_sectors = ⌈root_entry_count × 32 / bps⌉`. -/
def spec_root_dir_sectors (b : BootSector) : Nat :=
  (b.max_root_dir_entries * 32 + (b.bytes_per_sector - 1)) / b.bytes_per_sector

/-- Spec formula (§3): `data_region_sector = root_dir_sector + root_dir_sectors`. -/
def spec_data_region_sector (b : BootSector) : Nat :=
  spec_root_dir_sector b + spec_root_dir_sectors b

/-- Spec formula (§3): `cluster_to_sector(c) = data_region_sector + (c − 2) × spc`. -/
def spec_cluster_to_sector (b : BootSector) (c : Nat) : Nat :=
  spec_data_region_sector b + (c - 2) * b.sectors_per_cluster

/-- A validly-parsed boot sector with `bytes_per_sector = 1024`. -/
def boot1024 : BootSector := ⟨1024, 1, 1, 2, 224, 2880, 9⟩

/-- C5 counterexample: `boot1024` passes the source's validation, and the
spec geometry puts cluster 2 at sector 26 (root at 19, 7 root-directory
sectors of 1024 bytes), but the source reads cluster 2 at the hard-coded
sector 2 + 31 = 33 and reads 224/16 = 14 root sectors instead of 7: the
geometry used for reads is not computed from the parsed fields. -/
theorem c5_geometry_counterexample :
    boot_sector_invalid boot1024 = false ∧
    spec_cluster_to_sector boot1024 2 = 26 ∧
    code_cluster_read_sector 2 = 33 ∧
    (26 : Nat) ≠ 33 ∧
    spec_root_dir_sectors boot1024 = 7 ∧
    code_root_dir_sector_count boot1024 = 14 ∧
    (7 : Nat) ≠ 14 := by
  decide

/-- C5 amended: the source uses the fixed 1.44 MB-floppy geometry — root
directory at sector 19 (reading `root_entry_count / 16` sectors) and
cluster `c` at sector `c + 31` — and these coincide with the spec's
computed formulas exactly for the standard parsed geometry
(bytes_per_sector = 512, sectors_per_cluster = 1, reserved = 1,
fat_count = 2, sectors_per_fat = 9, root_entry_count = 224). -/
theorem c5_geometry_hardcoded (b : BootSector) (c : Nat)
    (hbps : b.bytes_per_sector = 512) (hspc : b.sectors_per_cluster = 1)
    (hres : b.reserved_sectors_quantity = 1) (hfat : b.num_of_FATs = 2)
    (hspf : b.sectors_per_FAT = 9) (hroot : b.max_root_dir_entries = 224)
    (hc : 2 ≤ c) :
    spec_root_dir_sector b = code_root_dir_sector ∧
    spec_root_dir_sectors b = code_root_dir_sector_count b ∧
    spec_data_region_sector b = 33 ∧
    spec_cluster_to_sector b c = code_cluster_read_sector c := by
  simp only [spec_root_dir_sector, spec_root_dir_sectors, spec_data_region_sector,
    spec_cluster_to_sector, code_root_dir_sector, code_root_dir_sector_count,
    code_cluster_read_sector, ROOT_DIR_12_PHYSC_BASE_INDEX, ENTRIES_PER_SECTOR,
    FAT12_CLUSTER_OFFSET_FACTOR, hbps, hspc, hres, hfat, hspf, hroot]
  refine ⟨trivial, trivial, trivial, ?_⟩
  omega

/-- C5 witness: the amended geometry theorem at the stock boot sector and
cluster 5. -/
theorem c5_geometry_hardcoded_witness :
    spec_root_dir_sector ⟨512, 1, 1, 2, 224, 2880, 9⟩ = code_root_dir_sector ∧
    spec_root_dir_sectors ⟨512, 1, 1, 2, 224, 2880, 9⟩ =
      code_root_dir_sector_count ⟨512, 1, 1, 2, 224, 2880, 9⟩ ∧
    spec_data_region_sector ⟨512, 1, 1, 2, 224, 2880, 9⟩ = 33 ∧
    spec_cluster_to_sector ⟨512, 1, 1, 2, 224, 2880, 9⟩ 5 = code_cluster_read_sector 5 :=
  c5_geometry_hardcoded ⟨512, 1, 1, 2, 224, 2880, 9⟩ 5
    rfl rfl rfl rfl rfl rfl (by omega)

/-! ## Directory reading (FATfs.c:365-493 `fatfs_read_dir`)

The entry-scan loop (FATfs.c:432-443) walks the directory buffer in 32-byte
strides; an entry qualifies when its first byte is neither 0xE5 (deleted)
nor 0x00 (unused) and its attribute byte (offset 11) is not 0x0F
(long-name fragment).  Qualifying stride offsets are collected into
`entries_index` in increasing order; a second loop (FATfs.c:463-481) parses
one record per collected offset.  A fresh call (with `list_count` still 0)
produces exactly the records below; `list_count` itself accumulates across
calls and is modelled separately for C10. -/

/-- Model of `hex_to_decimal` (FATfs.c:132-158): little-endian multi-byte read.  The
bounds check `index >= line_length && index < 0` is never true (`index` is
unsigned), so the loop always runs. -/
def hex_to_decimal (buf : List Nat) (index : Nat) (bytes_count : Nat) : Nat :=
  (List.range bytes_count).foldl
    (fun acc i => acc + (buf.getD (index + i) 0) <<< (8 * i)) 0

/-- One decoded 32-byte directory entry (FATfs.h:86-93, FATfs.c:463-481):
11 name bytes plus the appended NUL, the attribute byte at offset 11, the
16-bit first cluster at offset 26 and the 32-bit size at offset 28. -/
structure DirEntry where
  entry_name : List Nat
  -- `attribute` in the source struct; `attribute` is a Lean keyword.
  entry_attribute : Nat
  first_logical_cluster : Nat
  entry_size : Nat
deriving DecidableEq, Repr

/-- The qualification test of FATfs.c:435. -/
def entry_qualifies (buf : List Nat) (i : Nat) : Bool :=
  (buf.getD i 0 != DELETED_ENTRY) && (buf.getD i 0 != UNUSED_ENTRY) &&
    (buf.getD (i + 11) 0 != FAKE_ENTRY)

/-- The stride offsets visited by the scan loop `for (i = 0; i <
buffer_size; i += 32)` (FATfs.c:432), in visit order. -/
def dir_stride_offsets (size : Nat) : List Nat :=
  (List.range size).filter (fun i => i % 32 == 0)

/-- The `entries_index` array after the scan loop (FATfs.c:432-443):
qualifying stride offsets in increasing on-disk order. -/
def entries_index (buf : List Nat) : List Nat :=
  (dir_stride_offsets buf.length).filter (entry_qualifies buf)

/-- The record built for offset `i` by FATfs.c:463-481. -/
def parse_entry (buf : List Nat) (i : Nat) : DirEntry :=
  { entry_name := ((buf.drop i).take 11) ++ [0]
    entry_attribute := buf.getD (i + 11) 0
    first_logical_cluster := hex_to_decimal buf (i + 26) 2
    entry_size := hex_to_decimal buf (i + 28) 4 }

/-- The listing a fresh `fatfs_read_dir` call builds from a directory
buffer: one parsed record per collected offset, in collection order. -/
def fatfs_read_dir_entries (buf : List Nat) : List DirEntry :=
  (entries_index buf).map (parse_entry buf)

/-- C8: every entry of the listing comes from a qualifying 32-byte stride
offset, the offsets are strictly increasing (on-disk order), and no listed
entry has first name byte 0x00 or 0xE5 or attribute byte 0x0F. -/
theorem c8_read_dir_listing (buf : List Nat) :
    fatfs_read_dir_entries buf = (entries_index buf).map (parse_entry buf) ∧
    List.Sorted (· < ·) (entries_index buf) ∧
    (∀ i ∈ entries_index buf, i % 32 = 0 ∧ i < buf.length) ∧
    ∀ e ∈ fatfs_read_dir_entries buf,
      e.entry_name.headD 0 ≠ UNUSED_ENTRY ∧
      e.entry_name.headD 0 ≠ DELETED_ENTRY ∧
      e.entry_attribute ≠ FAKE_ENTRY := by
  have hmem : ∀ i ∈ entries_index buf,
      i % 32 = 0 ∧ i < buf.length ∧ entry_qualifies buf i = true := by
    intro i hi
    rw [entries_index, List.mem_filter] at hi
    rcases hi with ⟨hstride, hqual⟩
    rw [dir_stride_offsets, List.mem_filter, List.mem_range] at hstride
    exact ⟨by simpa using hstride.2, hstride.1, hqual⟩
  refine ⟨rfl, ?_, fun i hi => ⟨(hmem i hi).1, (hmem i hi).2.1⟩, ?_⟩
  · exact (List.sorted_lt_range _).filter _ |>.filter _
  · intro e he
    rw [fatfs_read_dir_entries, List.mem_map] at he
    rcases he with ⟨i, hi, hpe⟩
    obtain ⟨-, hlen, hqual⟩ := hmem i hi
    have hhead : (parse_entry buf i).entry_name.headD 0 = buf.getD i 0 := by
      have hne : buf.drop i ≠ [] := by
        intro hnil
        rw [List.drop_eq_nil_iff] at hnil
        omega
      rcases List.exists_cons_of_ne_nil hne with ⟨a, l, hal⟩
      have hget : buf[i]? = some a := by
        have hdrop : (buf.drop i)[0]? = buf[i + 0]? := List.getElem?_drop buf i 0
        rw [hal] at hdrop
        simpa using hdrop.symm
      simp [parse_entry, hal, hget, List.take_succ_cons]
    rw [entry_qualifies] at hqual
    simp only [Bool.and_eq_true, bne_iff_ne] at hqual
    subst hpe
    refine ⟨?_, ?_, ?_⟩
    · rw [hhead]; exact hqual.1.2
    · rw [hhead]; exact hqual.1.1
    · simpa [parse_entry] using hqual.2

/-- A 32-byte buffer holding one qualifying entry (name bytes 0x41,
attribute 0x41). -/
def buf32 : List Nat := List.replicate 32 0x41

/-- C8 witness: the filter properties at the concrete listing of `buf32`. -/
theorem c8_read_dir_listing_witness :
    (parse_entry buf32 0) ∈ fatfs_read_dir_entries buf32 ∧
    (parse_entry buf32 0).entry_name.headD 0 ≠ UNUSED_ENTRY ∧
    (parse_entry buf32 0).entry_name.headD 0 ≠ DELETED_ENTRY ∧
    (parse_entry buf32 0).entry_attribute ≠ FAKE_ENTRY := by
  have hm : (parse_entry buf32 0) ∈ fatfs_read_dir_entries buf32 := by decide
  exact ⟨hm, (c8_read_dir_listing buf32).2.2.2 (parse_entry buf32 0) hm⟩

/-! ## Entry-count accumulation (FATfs.c:441, FATfs.c:501-525)

`s_dirlist.list_count` is a `uint16_t` that `fatfs_read_dir` increments once
per qualifying entry (FATfs.c:441) and never resets; only
`fatfs_clear_dir_list` sets it back to 0 (FATfs.c:522). -/

/-- Number of qualifying entries a directory buffer contributes. -/
def qual_count (buf : List Nat) : Nat := (entries_index buf).length

/-- Effect of one `fatfs_read_dir` call on `s_dirlist.list_count`
(`uint16_t`, so the repeated `++` wraps mod 65536). -/
def read_dir_list_count (count : Nat) (buf : List Nat) : Nat :=
  (count + qual_count buf) % 65536

/-- Effect of `fatfs_clear_dir_list` on `s_dirlist.list_count`
(FATfs.c:522). -/
def clear_dir_list_count : Nat := 0

/-- C10: for two consecutive `fatfs_read_dir` calls with no intervening
clear (and no `uint16_t` wrap), the second call's `list_count` is the first
call's count plus the number of qualifying entries of the second directory;
the count is reset to zero only by `fatfs_clear_dir_list`. -/
theorem c10_list_count_accumulates (count : Nat) (buf1 buf2 : List Nat)
    (hnowrap : count + qual_count buf1 + qual_count buf2 < 65536) :
    read_dir_list_count (read_dir_list_count count buf1) buf2 =
      read_dir_list_count count buf1 + qual_count buf2 ∧
    clear_dir_list_count = 0 := by
  constructor
  · simp only [read_dir_list_count]
    rw [Nat.mod_eq_of_lt (by omega), Nat.mod_eq_of_lt (by omega)]
  · rfl

/-- C10 witness: starting from count 0 and reading the one-entry directory
`buf32` twice, the second call returns 1 + 1 = 2. -/
theorem c10_list_count_witness :
    read_dir_list_count (read_dir_list_count 0 buf32) buf32 =
      read_dir_list_count 0 buf32 + qual_count buf32 ∧
    clear_dir_list_count = 0 :=
  c10_list_count_accumulates 0 buf32 buf32 (by decide)

/-! ## HAL sector size (HAL.c:117-131 `kmc_update_sector_size`) -/

/-- Model of `kmc_update_sector_size` (HAL.c:117-131): given the current
`s_sector_size` and the argument `bytes_per_sector`, returns the pair
(new `s_sector_size`, returned value).  The source updates only when
`0 < bps && bps % 512 == 0 && bps != 512` and then returns the (possibly
updated) `s_sector_size`, so both components coincide. -/
def kmc_update_sector_size (s_sector_size bps : Nat) : Nat × Nat :=
  if decide (0 < bps) && (bps % KMC_DEFAULT_SECTOR_SIZE == 0) &&
      (bps != KMC_DEFAULT_SECTOR_SIZE) then
    (bps, bps)
  else
    (s_sector_size, s_sector_size)

/-- C9: called when the current sector size is the post-open default 512,
`kmc_update_sector_size` installs and returns `n` exactly when `n > 0` and
`n` is a multiple of 512, and otherwise keeps and returns 512.  (The
source's extra `bps != 512` test makes no difference here: when `n = 512`
the retained current value already equals `n`.) -/
theorem c9_update_sector_size (n : Nat) :
    kmc_update_sector_size 512 n =
      if decide (0 < n) && (n % 512 == 0) then (n, n) else (512, 512) := by
  by_cases h512 : n = 512
  · subst h512
    rfl
  · rw [kmc_update_sector_size, KMC_DEFAULT_SECTOR_SIZE]
    by_cases hc : decide (0 < n) && (n % 512 == 0)
    · rw [if_pos (by simp_all), if_pos hc]
    · rw [if_neg (by simp_all), if_neg hc]

end FAT12
